import Mathlib

/-!
Shallow embedding of the MII client dispatch and fan-out layer
(`mii/client.py`): deployment-name resolution, the single-endpoint
client, the tensor-parallel fan-out client, the in-process
(non-persistent) client, and their session/terminate operations.

Transport calls and pipeline invocations are made observable as
explicit traces: every embedded operation returns the list of RPC
calls (resp. pipeline invocations) it issued together with its
`Except`-typed outcome, so that "issues exactly one call", "issues
zero calls before failing", and abort-on-failure behaviours are
provable statements about the embedding.
-/

namespace MII

/-- Task kinds. Modelled from the spec: the enumerated task kinds
(text generation, question answering, conversational, text-to-image, ...);
the enumeration itself (`mii.constants.Tasks`) lives outside the
embedded source file. -/
inductive Task where
  | text_generation
  | text_classification
  | question_answering
  | fill_mask
  | token_classification
  | conversational
  | text2img
  deriving DecidableEq, Repr

/-- An observable payload value (request fields, decoded responses,
conversation objects).  The client layer treats payload contents as
uninterpreted data, so an atomic value domain suffices. -/
inductive Value where
  | str : String → Value
  | num : Int → Value
  deriving DecidableEq, Repr

/-- A request envelope / keyword-parameter mapping: field name to value,
with Python-dict lookup via `List.lookup`. -/
abbrev Dict := List (String × Value)

/-- A wire-level protobuf payload, carrying uninterpreted fields. -/
structure Proto where
  data : Dict
  deriving DecidableEq, Repr

/-- An in-process inference pipeline reference (the pipeline object is
external to the client layer; only its identity matters here). -/
structure Pipeline where
  id : Nat
  deriving DecidableEq, Repr

/-- Errors raised by the client layer, mirroring the Python exceptions:
`ValueError` for an unknown task, `AssertionError` for failed asserts,
a plain `Exception` for the missing question-answering fields,
`KeyError` for failed dict indexing, transport-level RPC failures, and
`IndexError` for indexing an empty task list. -/
inductive Err where
  | unknownTask : Task → Err
  | assertionError : String → Err
  | missingField : String → Err
  | keyError : String → Err
  | transport : String → Err
  | indexError : Err
  | deploymentNotFound : String → Err
  deriving DecidableEq, Repr

/-- One RPC call observable at a stub: a task-specific method
invocation with its packed payload, or one of the fixed session /
terminate calls. -/
inductive RpcCall where
  | invoke : String → Proto → RpcCall
  | createSession : String → RpcCall
  | destroySession : String → RpcCall
  | terminate : RpcCall
  deriving DecidableEq, Repr

/-- The behaviour of one remote endpoint as seen through its stub:
each issued RPC call either returns a response payload or fails. -/
abbrev Stub := RpcCall → Except Err Proto

/-- Modelled from the spec: one entry of the Task Registry
(`GRPC_METHOD_TABLE`, defined in `mii/method_table.py` outside the
embedded source): the RPC method name, request packing, response
unpacking, the in-process inference runner, and the conversation
constructor used by the conversational branch. -/
structure TaskMethods where
  method : String
  pack_request_to_proto : Dict → Dict → Proto
  unpack_response_from_proto : Proto → Value
  run_inference : Pipeline → List Value → Dict → Value
  create_conversation : Dict → Dict → Value

/-- The Task Registry: a lookup from task kind to its registered
behaviours, `none` when the task kind is absent from the table. -/
abbrev MethodTable := Task → Option TaskMethods

/-- Client to send queries to a single endpoint
(`MIIClient.__init__`): stores the task kind and the endpoint address;
the channel/stub behaviour is supplied at each embedded call. -/
structure MIIClient where
  task : Task
  host : String
  port : Nat
  deriving DecidableEq, Repr

/-- `MIIClient._request_async_response`: fails with the unknown-task
`ValueError` before any RPC when the task is absent from the method
table; otherwise packs the request, issues exactly one RPC call to the
registered method, and unpacks the response. -/
def MIIClient.request_async_response (table : MethodTable) (stub : Stub)
    (c : MIIClient) (request_dict : Dict) (query_kwargs : Dict) :
    List RpcCall × Except Err Value :=
  match table c.task with
  | none => ([], Except.error (Err.unknownTask c.task))
  | some task_methods =>
    let proto_request := task_methods.pack_request_to_proto request_dict query_kwargs
    match stub (RpcCall.invoke task_methods.method proto_request) with
    | Except.error e =>
        ([RpcCall.invoke task_methods.method proto_request], Except.error e)
    | Except.ok proto_response =>
        ([RpcCall.invoke task_methods.method proto_request],
         Except.ok (task_methods.unpack_response_from_proto proto_response))

/-- `MIIClient.query`: the synchronous façade; `run_until_complete`
of the single asynchronous request is the request itself. -/
def MIIClient.query (table : MethodTable) (stub : Stub) (c : MIIClient)
    (request_dict : Dict) (query_kwargs : Dict) :
    List RpcCall × Except Err Value :=
  MIIClient.request_async_response table stub c request_dict query_kwargs

/-- A sample Task Registry entry used to evaluate the embedding on
concrete inputs. -/
def sampleMethods : TaskMethods where
  method := "GeneratorReply"
  pack_request_to_proto := fun d _ => ⟨d⟩
  unpack_response_from_proto := fun p => Value.num p.data.length
  run_inference := fun p args kw =>
    Value.num (Int.ofNat p.id + Int.ofNat args.length + Int.ofNat kw.length)
  create_conversation := fun d kw => Value.num (Int.ofNat d.length + Int.ofNat kw.length)

/-- Sample table: text-to-image is left unregistered. -/
def sampleTable : MethodTable := fun t =>
  match t with
  | Task.text2img => none
  | _ => some sampleMethods

/-- A sample stub that answers every call with a fixed payload. -/
def okStub : Stub := fun _ => Except.ok ⟨[("ok", Value.num 1)]⟩

/-- Claim C5: a query on a Single-Endpoint Client whose task kind is
absent from the task registry fails with the unknown-task error and
issues zero RPC calls; when the task kind is registered, exactly one
RPC call to the registered method is issued and, on transport success,
its unpacked response is returned. -/
theorem c5_query_registry_check (table : MethodTable) (stub : Stub)
    (c : MIIClient) (request_dict query_kwargs : Dict) :
    (table c.task = none →
      MIIClient.query table stub c request_dict query_kwargs
        = ([], Except.error (Err.unknownTask c.task)))
    ∧ (∀ tm, table c.task = some tm →
        (MIIClient.query table stub c request_dict query_kwargs).1
          = [RpcCall.invoke tm.method (tm.pack_request_to_proto request_dict query_kwargs)]
        ∧ ∀ resp,
            stub (RpcCall.invoke tm.method (tm.pack_request_to_proto request_dict query_kwargs))
              = Except.ok resp →
            (MIIClient.query table stub c request_dict query_kwargs).2
              = Except.ok (tm.unpack_response_from_proto resp)) := by
  refine ⟨fun hnone => ?_, fun tm htm => ?_⟩
  · simp [MIIClient.query, MIIClient.request_async_response, hnone]
  · refine ⟨?_, fun resp hresp => ?_⟩
    · simp only [MIIClient.query, MIIClient.request_async_response, htm]
      cases stub (RpcCall.invoke tm.method (tm.pack_request_to_proto request_dict query_kwargs)) <;> rfl
    · simp only [MIIClient.query, MIIClient.request_async_response, htm, hresp]

/-- Witness for C5 at a concrete client, table and stub: the
text-to-image task is unregistered in the sample table and the query
issues no call; the text-generation task is registered and the query
issues one call and returns the unpacked response. -/
theorem c5_query_registry_check_witness :
    (MIIClient.query sampleTable okStub ⟨Task.text2img, "localhost", 50050⟩ [] []
        = ([], Except.error (Err.unknownTask Task.text2img)))
    ∧ ((MIIClient.query sampleTable okStub ⟨Task.text_generation, "localhost", 50050⟩ [] []).1
        = [RpcCall.invoke "GeneratorReply" ⟨[]⟩])
    ∧ ((MIIClient.query sampleTable okStub ⟨Task.text_generation, "localhost", 50050⟩ [] []).2
        = Except.ok (Value.num 1)) := by
  refine ⟨(c5_query_registry_check sampleTable okStub ⟨Task.text2img, "localhost", 50050⟩ [] []).1 rfl,
    ((c5_query_registry_check sampleTable okStub ⟨Task.text_generation, "localhost", 50050⟩ [] []).2
      sampleMethods rfl).1, ?_⟩
  exact ((c5_query_registry_check sampleTable okStub ⟨Task.text_generation, "localhost", 50050⟩ [] []).2
      sampleMethods rfl).2 ⟨[("ok", Value.num 1)]⟩ rfl

/-- Client to send queries to multiple endpoints in parallel
(`MIITensorParallelClient.__init__`): the task kind and one
single-endpoint client per port. -/
structure MIITensorParallelClient where
  task : Task
  clients : List MIIClient
  deriving DecidableEq, Repr

/-- `MIITensorParallelClient.__init__` body: one `MIIClient` per port,
in the given port order, all sharing the task kind and host. -/
def MIITensorParallelClient.make (task : Task) (host : String) (ports : List Nat) :
    MIITensorParallelClient :=
  ⟨task, ports.map fun port => ⟨task, host, port⟩⟩

/-- The loop of `_query_in_tensor_parallel` that creates one
asynchronous request task per shard client, pairing each with its
shard index; every created task is started, so the RPC call of every shard
is issued no matter which responses are ever awaited. -/
def fan_out_tasks (table : MethodTable) (stubs : Nat → Stub)
    (request_dict query_kwargs : Dict) :
    Nat → List MIIClient → List (Nat × (List RpcCall × Except Err Value))
  | _, [] => []
  | i, client :: rest =>
      (i, MIIClient.request_async_response table (stubs i) client request_dict query_kwargs)
        :: fan_out_tasks table stubs request_dict query_kwargs (i + 1) rest

/-- `MIITensorParallelClient._query_in_tensor_parallel` followed by
the `responses[0].result()` step of `query`: creates one request task per shard
client, awaits only `responses[0]`, and returns its result.  The
output pairs the full per-shard call trace with the outcome of shard 0
(`IndexError` when the client list is empty). -/
def MIITensorParallelClient.query_in_tensor_parallel (table : MethodTable)
    (stubs : Nat → Stub) (c : MIITensorParallelClient)
    (request_dict query_kwargs : Dict) :
    List (Nat × List RpcCall) × Except Err Value :=
  let responses := fan_out_tasks table stubs request_dict query_kwargs 0 c.clients
  (responses.map fun t => (t.1, t.2.1),
   match responses with
   | [] => Except.error Err.indexError
   | t :: _ => t.2.2)

/-- The call trace of the fan-out loop over clients that all share one
registered task: each shard issues the one identical packed call, with
shard indices ascending from the start index. -/
theorem fan_out_tasks_trace (table : MethodTable) (stubs : Nat → Stub)
    (request_dict query_kwargs : Dict) (task : Task) (host : String)
    (tm : TaskMethods) (htm : table task = some tm) :
    ∀ (ports : List Nat) (i0 : Nat),
      (fan_out_tasks table stubs request_dict query_kwargs i0
          (ports.map fun port => ⟨task, host, port⟩)).map (fun t => (t.1, t.2.1))
        = (List.range ports.length).map fun j =>
            (i0 + j,
             [RpcCall.invoke tm.method (tm.pack_request_to_proto request_dict query_kwargs)]) := by
  intro ports
  induction ports with
  | nil => intro i0; rfl
  | cons p ps ih =>
    intro i0
    have hhead : (MIIClient.request_async_response table (stubs i0)
        ⟨task, host, p⟩ request_dict query_kwargs).1
        = [RpcCall.invoke tm.method (tm.pack_request_to_proto request_dict query_kwargs)] := by
      simp only [MIIClient.request_async_response, htm]
      cases stubs i0 (RpcCall.invoke tm.method
        (tm.pack_request_to_proto request_dict query_kwargs)) <;> rfl
    simp only [List.map_cons, fan_out_tasks, List.length_cons, List.range_succ_eq_map,
      List.map_map, hhead, ih (i0 + 1)]
    refine congrArg (_ :: ·) ?_
    refine List.map_congr_left fun j _ => ?_
    simp [Function.comp]
    omega

/-- Claim C2: a Parallel Fan-out Client with N shard clients issues
exactly N RPC calls, one identical packed request per shard in shard
order; the returned outcome is the decoded response of shard 0; and the
outcome is unchanged under any change to the stub behaviour of shards
1..N-1 (their completion or results are never observed). -/
theorem c2_fanout_query (table : MethodTable) (stubs stubs2 : Nat → Stub)
    (task : Task) (host : String) (ports : List Nat) (tm : TaskMethods)
    (request_dict query_kwargs : Dict)
    (hN : 0 < ports.length) (htm : table task = some tm)
    (h0 : stubs2 0 = stubs 0) :
    ((MIITensorParallelClient.query_in_tensor_parallel table stubs
        (MIITensorParallelClient.make task host ports) request_dict query_kwargs).1
      = (List.range ports.length).map fun j =>
          (j, [RpcCall.invoke tm.method (tm.pack_request_to_proto request_dict query_kwargs)]))
    ∧ ((MIITensorParallelClient.query_in_tensor_parallel table stubs
        (MIITensorParallelClient.make task host ports) request_dict query_kwargs).2
      = (MIIClient.request_async_response table (stubs 0)
          ⟨task, host, ports.headD 0⟩ request_dict query_kwargs).2)
    ∧ ((MIITensorParallelClient.query_in_tensor_parallel table stubs2
        (MIITensorParallelClient.make task host ports) request_dict query_kwargs).2
      = (MIITensorParallelClient.query_in_tensor_parallel table stubs
          (MIITensorParallelClient.make task host ports) request_dict query_kwargs).2) := by
  cases ports with
  | nil => exact absurd hN (by simp)
  | cons p ps =>
    refine ⟨?_, rfl, ?_⟩
    · have := fan_out_tasks_trace table stubs request_dict query_kwargs task host tm htm
        (p :: ps) 0
      simp only [MIITensorParallelClient.query_in_tensor_parallel,
        MIITensorParallelClient.make] at *
      simpa using this
    · simp only [MIITensorParallelClient.query_in_tensor_parallel,
        MIITensorParallelClient.make, List.map_cons, fan_out_tasks, h0]

/-- Witness for C2: two ports, a table registering text generation,
and two stub families that agree on shard 0 but give shard 1 a
transport failure in one and a different payload in the other: both
give the same two-call trace and the same shard-0 result. -/
theorem c2_fanout_query_witness :
    ((MIITensorParallelClient.query_in_tensor_parallel sampleTable (fun _ => okStub)
        (MIITensorParallelClient.make Task.text_generation "localhost" [50050, 50051])
        [("query", Value.str "hello")] []).1
      = [(0, [RpcCall.invoke "GeneratorReply" ⟨[("query", Value.str "hello")]⟩]),
         (1, [RpcCall.invoke "GeneratorReply" ⟨[("query", Value.str "hello")]⟩])])
    ∧ ((MIITensorParallelClient.query_in_tensor_parallel sampleTable
        (fun i => if i = 0 then okStub else fun _ => Except.error (Err.transport "down"))
        (MIITensorParallelClient.make Task.text_generation "localhost" [50050, 50051])
        [("query", Value.str "hello")] []).2
      = (MIITensorParallelClient.query_in_tensor_parallel sampleTable (fun _ => okStub)
        (MIITensorParallelClient.make Task.text_generation "localhost" [50050, 50051])
        [("query", Value.str "hello")] []).2) := by
  have h := c2_fanout_query sampleTable (fun _ => okStub)
    (fun i => if i = 0 then okStub else fun _ => Except.error (Err.transport "down"))
    Task.text_generation "localhost" [50050, 50051] sampleMethods
    [("query", Value.str "hello")] [] (by decide) rfl rfl
  exact ⟨by simpa using h.1, h.2.2⟩

/-- `MIIClient.terminate`: issues the terminate RPC (always exactly
one call); a transport failure propagates. -/
def MIIClient.terminate_call (stub : Stub) (_c : MIIClient) :
    List RpcCall × Except Err Unit :=
  ([RpcCall.terminate],
   match stub RpcCall.terminate with
   | Except.error e => Except.error e
   | Except.ok _ => Except.ok ())

/-- `MIIClient.create_session`: asserts that the task kind is
text generation before any RPC; on a text-generation client issues
exactly one CreateSession call and returns its response. -/
def MIIClient.create_session (stub : Stub) (c : MIIClient) (session_id : String) :
    List RpcCall × Except Err Proto :=
  if c.task = Task.text_generation then
    ([RpcCall.createSession session_id], stub (RpcCall.createSession session_id))
  else
    ([], Except.error (Err.assertionError
      "Session creation only available for task text-generation"))

/-- `MIIClient.destroy_session`: asserts that the task kind is
text generation before any RPC; on a text-generation client issues
exactly one DestroySession call and waits for acknowledgement. -/
def MIIClient.destroy_session (stub : Stub) (c : MIIClient) (session_id : String) :
    List RpcCall × Except Err Unit :=
  if c.task = Task.text_generation then
    ([RpcCall.destroySession session_id],
     match stub (RpcCall.destroySession session_id) with
     | Except.error e => Except.error e
     | Except.ok _ => Except.ok ())
  else
    ([], Except.error (Err.assertionError
      "Session deletion only available for task text-generation"))

/-- The `for client in self.clients:` loop shared by the fan-out
fan-out client methods `terminate`, `create_session` and `destroy_session`: applies
the per-shard operation strictly sequentially in ascending shard
order, tags each issued call with its shard index, and aborts the loop
at the first raised exception, which propagates. -/
def run_shards (f : Nat → MIIClient → List RpcCall × Except Err Unit) :
    Nat → List MIIClient → List (Nat × RpcCall) × Except Err Unit
  | _, [] => ([], Except.ok ())
  | i, client :: rest =>
    match f i client with
    | (tr, Except.error e) => (tr.map fun r => (i, r), Except.error e)
    | (tr, Except.ok _) =>
        let out := run_shards f (i + 1) rest
        ((tr.map fun r => (i, r)) ++ out.1, out.2)

/-- `MIITensorParallelClient.terminate`: terminates shard clients in
sequence. -/
def MIITensorParallelClient.terminate (stubs : Nat → Stub)
    (c : MIITensorParallelClient) : List (Nat × RpcCall) × Except Err Unit :=
  run_shards (fun i client => MIIClient.terminate_call (stubs i) client) 0 c.clients

/-- `MIITensorParallelClient.create_session`: creates the session on
every shard client in sequence (each per-shard response is discarded
by the loop). -/
def MIITensorParallelClient.create_session (stubs : Nat → Stub)
    (c : MIITensorParallelClient) (session_id : String) :
    List (Nat × RpcCall) × Except Err Unit :=
  run_shards (fun i client =>
    let out := MIIClient.create_session (stubs i) client session_id
    (out.1, out.2.map fun _ => ())) 0 c.clients

/-- `MIITensorParallelClient.destroy_session`: destroys the session on
every shard client in sequence. -/
def MIITensorParallelClient.destroy_session (stubs : Nat → Stub)
    (c : MIITensorParallelClient) (session_id : String) :
    List (Nat × RpcCall) × Except Err Unit :=
  run_shards (fun i client =>
    MIIClient.destroy_session (stubs i) client session_id) 0 c.clients

/-- Rewriting an index-shifted tagged range map into head-cons form. -/
theorem range_map_shift (n i0 : Nat) (a : RpcCall) :
    (List.range (n + 1)).map (fun j => (i0 + j, a))
      = (i0, a) :: (List.range n).map fun j => (i0 + 1 + j, a) := by
  simp only [List.range_succ_eq_map, List.map_cons, Nat.add_zero, List.map_map]
  refine congrArg (_ :: ·) (List.map_congr_left fun j _ => ?_)
  simp only [Function.comp_apply]
  congr 1
  omega

/-- When the operation of every shard issues the single call `a` and every
shard in range succeeds, the sequential loop visits all shards in
ascending order and succeeds. -/
theorem run_shards_all_ok (a : RpcCall) (res : Nat → Except Err Unit)
    (f : Nat → MIIClient → List RpcCall × Except Err Unit) :
    ∀ (clients : List MIIClient) (i0 : Nat),
      (∀ i client, client ∈ clients → f i client = ([a], res i)) →
      (∀ j, j < clients.length → res (i0 + j) = Except.ok ()) →
      run_shards f i0 clients
        = ((List.range clients.length).map fun j => (i0 + j, a), Except.ok ()) := by
  intro clients
  induction clients with
  | nil => intro i0 _ _; rfl
  | cons client rest ih =>
    intro i0 hf hok
    have h0 : res i0 = Except.ok () := by
      have := hok 0 (by simp)
      simpa using this
    have hfc := hf i0 client (by simp)
    have hrest := ih (i0 + 1) (fun i cl hcl => hf i cl (List.mem_cons_of_mem _ hcl))
      (fun j hj => by
        have := hok (j + 1) (by simpa using Nat.succ_lt_succ hj)
        simpa [Nat.add_assoc, Nat.add_comm 1 j] using this)
    simp only [run_shards, hfc, h0, hrest, List.length_cons, range_map_shift,
      List.map_cons, List.map_nil, List.nil_append, List.cons_append]

/-- When the operation of every shard issues the single call `a`, shards
before `k` succeed and shard `k` fails, the sequential loop visits
exactly shards `0..k` in ascending order, issues no call to any later
shard, and propagates the failure of shard `k`. -/
theorem run_shards_fail (a : RpcCall) (res : Nat → Except Err Unit) (e : Err)
    (f : Nat → MIIClient → List RpcCall × Except Err Unit) :
    ∀ (clients : List MIIClient) (i0 k : Nat),
      (∀ i client, client ∈ clients → f i client = ([a], res i)) →
      k < clients.length →
      (∀ j, j < k → res (i0 + j) = Except.ok ()) →
      res (i0 + k) = Except.error e →
      run_shards f i0 clients
        = ((List.range (k + 1)).map fun j => (i0 + j, a), Except.error e) := by
  intro clients
  induction clients with
  | nil => intro i0 k _ hk _ _; exact absurd hk (by simp)
  | cons client rest ih =>
    intro i0 k hf hk hok hfail
    have hfc := hf i0 client (by simp)
    cases k with
    | zero =>
      have h0 : res i0 = Except.error e := by simpa using hfail
      simp [run_shards, hfc, h0, List.range_succ]
    | succ k =>
      have h0 : res i0 = Except.ok () := by
        have := hok 0 (Nat.succ_pos k)
        simpa using this
      have hrest := ih (i0 + 1) k (fun i cl hcl => hf i cl (List.mem_cons_of_mem _ hcl))
        (by simpa using Nat.lt_of_succ_lt_succ hk)
        (fun j hj => by
          have := hok (j + 1) (Nat.succ_lt_succ hj)
          simpa [Nat.add_assoc, Nat.add_comm 1 j] using this)
        (by
          have : i0 + (k + 1) = i0 + 1 + k := by omega
          rw [← this]; exact hfail)
      simp only [run_shards, hfc, h0, hrest, range_map_shift,
        List.map_cons, List.map_nil, List.nil_append, List.cons_append]

/-- Decidable equality for `Except` outcomes, so that concrete runs of
the embedding can be checked by `decide`. -/
instance {ε α : Type} [DecidableEq ε] [DecidableEq α] : DecidableEq (Except ε α) :=
  fun a b =>
    match a, b with
    | Except.ok x, Except.ok y =>
        if h : x = y then Decidable.isTrue (by rw [h])
        else Decidable.isFalse (by intro hc; cases hc; exact h rfl)
    | Except.error x, Except.error y =>
        if h : x = y then Decidable.isTrue (by rw [h])
        else Decidable.isFalse (by intro hc; cases hc; exact h rfl)
    | Except.ok _, Except.error _ => Decidable.isFalse (by intro hc; cases hc)
    | Except.error _, Except.ok _ => Decidable.isFalse (by intro hc; cases hc)

/-- Three-shard stub family whose shard 1 fails its terminate RPC
while shards 0 and 2 would succeed. -/
def c3_stubs : Nat → Stub := fun i _ =>
  if i = 1 then Except.error (Err.transport "shard 1 terminate failed")
  else Except.ok ⟨[]⟩

/-- A fan-out client over three ports. -/
def c3_client : MIITensorParallelClient :=
  MIITensorParallelClient.make Task.text_generation "localhost" [50050, 50051, 50052]

/-- Claim C3 counterexample: on a 3-shard fan-out client whose shard 1
terminate RPC fails, `terminate` issues calls only to shards 0 and 1 —
shard 2 is never attempted, contradicting the claim that each remaining
terminate is attempted after an earlier failure.  The failure does
propagate. -/
theorem c3_counterexample :
    c3_client.clients.length = 3
    ∧ MIITensorParallelClient.terminate c3_stubs c3_client
      = ([(0, RpcCall.terminate), (1, RpcCall.terminate)],
         Except.error (Err.transport "shard 1 terminate failed"))
    ∧ (MIITensorParallelClient.terminate c3_stubs c3_client).1.filter
        (fun t => t.1 == 2) = [] := by
  refine ⟨rfl, by decide, by decide⟩

/-- Claim C3 (amended): `terminate` on a Parallel Fan-out Client
terminates the shard clients sequentially in ascending index order and
aborts at the first shard whose terminate RPC fails: that failure
propagates to the caller and no terminate call is issued to any shard
after the failing one. -/
theorem c3_terminate_aborts (stubs : Nat → Stub) (task : Task) (host : String)
    (ports : List Nat) (k : Nat) (e : Err)
    (hk : k < ports.length)
    (hok : ∀ j, j < k → ∃ p, stubs j RpcCall.terminate = Except.ok p)
    (hfail : stubs k RpcCall.terminate = Except.error e) :
    MIITensorParallelClient.terminate stubs
        (MIITensorParallelClient.make task host ports)
      = ((List.range (k + 1)).map fun j => (j, RpcCall.terminate), Except.error e) := by
  have hres := run_shards_fail RpcCall.terminate
    (fun i => match stubs i RpcCall.terminate with
      | Except.error e2 => Except.error e2
      | Except.ok _ => Except.ok ()) e
    (fun i client => MIIClient.terminate_call (stubs i) client)
    (ports.map fun port => ⟨task, host, port⟩) 0 k
    (fun _ _ _ => rfl) (by simpa using hk)
    (fun j hj => by
      obtain ⟨p, hp⟩ := hok j hj
      simp [hp])
    (by simp [hfail])
  simpa [MIITensorParallelClient.terminate, MIITensorParallelClient.make] using hres

/-- Witness for the amended C3 at the concrete three-shard client:
shards 0 and 1 are terminated in order, the shard-1 failure
propagates, and shard 2 is never called. -/
theorem c3_terminate_aborts_witness :
    MIITensorParallelClient.terminate c3_stubs c3_client
      = ([(0, RpcCall.terminate), (1, RpcCall.terminate)],
         Except.error (Err.transport "shard 1 terminate failed")) := by
  have h := c3_terminate_aborts c3_stubs Task.text_generation "localhost"
    [50050, 50051, 50052] 1 (Err.transport "shard 1 terminate failed")
    (by decide)
    (fun j hj => ⟨⟨[]⟩, by
      have hj0 : j = 0 := by omega
      subst hj0
      rfl⟩)
    rfl
  have h2 : (List.range 2).map (fun j => (j, RpcCall.terminate))
      = [(0, RpcCall.terminate), (1, RpcCall.terminate)] := by decide
  rw [h2] at h
  exact h

/-- Claim C9: on a Parallel Fan-out Client, `create_session`,
`destroy_session` and `terminate` are applied to the shard clients
strictly sequentially in ascending shard order; for the session
operations a failure on shard `k` propagates and no call is issued to
any shard after `k` (when all shards succeed, `terminate` likewise
visits every shard in ascending order). -/
theorem c9_shard_ops_sequential (stubs : Nat → Stub) (host : String)
    (ports : List Nat) (session_id : String) (k : Nat) (e : Err)
    (hk : k < ports.length) :
    ((∀ j, j < k → ∃ p, stubs j (RpcCall.createSession session_id) = Except.ok p) →
      stubs k (RpcCall.createSession session_id) = Except.error e →
      MIITensorParallelClient.create_session stubs
          (MIITensorParallelClient.make Task.text_generation host ports) session_id
        = ((List.range (k + 1)).map fun j => (j, RpcCall.createSession session_id),
           Except.error e))
    ∧ ((∀ j, j < k → ∃ p, stubs j (RpcCall.destroySession session_id) = Except.ok p) →
      stubs k (RpcCall.destroySession session_id) = Except.error e →
      MIITensorParallelClient.destroy_session stubs
          (MIITensorParallelClient.make Task.text_generation host ports) session_id
        = ((List.range (k + 1)).map fun j => (j, RpcCall.destroySession session_id),
           Except.error e))
    ∧ ((∀ j, j < ports.length → ∃ p, stubs j RpcCall.terminate = Except.ok p) →
      MIITensorParallelClient.terminate stubs
          (MIITensorParallelClient.make Task.text_generation host ports)
        = ((List.range ports.length).map fun j => (j, RpcCall.terminate),
           Except.ok ())) := by
  refine ⟨fun hok hfail => ?_, fun hok hfail => ?_, fun hok => ?_⟩
  · have hres := run_shards_fail (RpcCall.createSession session_id)
      (fun i => (stubs i (RpcCall.createSession session_id)).map fun _ => ()) e
      (fun i client =>
        let out := MIIClient.create_session (stubs i) client session_id
        (out.1, out.2.map fun _ => ()))
      (ports.map fun port => ⟨Task.text_generation, host, port⟩) 0 k
      (fun i client hcl => by
        obtain ⟨port, _, hq⟩ := List.mem_map.mp hcl
        subst hq
        simp [MIIClient.create_session])
      (by simpa using hk)
      (fun j hj => by
        obtain ⟨p, hp⟩ := hok j hj
        simp [hp, Except.map])
      (by simp [hfail, Except.map])
    simpa [MIITensorParallelClient.create_session, MIITensorParallelClient.make] using hres
  · have hres := run_shards_fail (RpcCall.destroySession session_id)
      (fun i => match stubs i (RpcCall.destroySession session_id) with
        | Except.error e2 => Except.error e2
        | Except.ok _ => Except.ok ()) e
      (fun i client => MIIClient.destroy_session (stubs i) client session_id)
      (ports.map fun port => ⟨Task.text_generation, host, port⟩) 0 k
      (fun i client hcl => by
        obtain ⟨port, _, hq⟩ := List.mem_map.mp hcl
        subst hq
        simp [MIIClient.destroy_session])
      (by simpa using hk)
      (fun j hj => by
        obtain ⟨p, hp⟩ := hok j hj
        simp [hp])
      (by simp [hfail])
    simpa [MIITensorParallelClient.destroy_session, MIITensorParallelClient.make] using hres
  · have hres := run_shards_all_ok RpcCall.terminate
      (fun i => match stubs i RpcCall.terminate with
        | Except.error e2 => Except.error e2
        | Except.ok _ => Except.ok ())
      (fun i client => MIIClient.terminate_call (stubs i) client)
      (ports.map fun port => ⟨Task.text_generation, host, port⟩) 0
      (fun _ _ _ => rfl)
      (fun j hj => by
        obtain ⟨p, hp⟩ := hok j (by simpa using hj)
        simp [hp])
    simpa [MIITensorParallelClient.terminate, MIITensorParallelClient.make] using hres

/-- Stub family for the C9 witness: session calls fail on shard 1 but
succeed elsewhere; terminate succeeds everywhere. -/
def c9_stubs : Nat → Stub := fun i call =>
  match call with
  | RpcCall.createSession _ =>
      if i = 1 then Except.error (Err.transport "create failed") else Except.ok ⟨[]⟩
  | RpcCall.destroySession _ =>
      if i = 1 then Except.error (Err.transport "destroy failed") else Except.ok ⟨[]⟩
  | _ => Except.ok ⟨[]⟩

/-- Witness for C9 on a concrete three-shard text-generation client:
session creation and destruction stop right after the shard-1 failure
with shard 2 untouched, and terminate visits shards 0, 1, 2 in
order. -/
theorem c9_shard_ops_sequential_witness :
    (MIITensorParallelClient.create_session c9_stubs
        (MIITensorParallelClient.make Task.text_generation "localhost" [6000, 6001, 6002]) "s1"
      = ([(0, RpcCall.createSession "s1"), (1, RpcCall.createSession "s1")],
         Except.error (Err.transport "create failed")))
    ∧ (MIITensorParallelClient.destroy_session c9_stubs
        (MIITensorParallelClient.make Task.text_generation "localhost" [6000, 6001, 6002]) "s1"
      = ([(0, RpcCall.destroySession "s1"), (1, RpcCall.destroySession "s1")],
         Except.error (Err.transport "destroy failed")))
    ∧ (MIITensorParallelClient.terminate c9_stubs
        (MIITensorParallelClient.make Task.text_generation "localhost" [6000, 6001, 6002])
      = ([(0, RpcCall.terminate), (1, RpcCall.terminate), (2, RpcCall.terminate)],
         Except.ok ())) := by
  have h := c9_shard_ops_sequential c9_stubs "localhost" [6000, 6001, 6002] "s1" 1
    (Err.transport "create failed") (by decide)
  have h2 := c9_shard_ops_sequential c9_stubs "localhost" [6000, 6001, 6002] "s1" 1
    (Err.transport "destroy failed") (by decide)
  refine ⟨?_, ?_, ?_⟩
  · have hc := h.1
      (fun j hj => ⟨⟨[]⟩, by
        have hj0 : j = 0 := by omega
        subst hj0
        rfl⟩) rfl
    have hr : (List.range 2).map (fun j => (j, RpcCall.createSession "s1"))
        = [(0, RpcCall.createSession "s1"), (1, RpcCall.createSession "s1")] := by decide
    rw [hr] at hc
    exact hc
  · have hd := h2.2.1
      (fun j hj => ⟨⟨[]⟩, by
        have hj0 : j = 0 := by omega
        subst hj0
        rfl⟩) rfl
    have hr : (List.range 2).map (fun j => (j, RpcCall.destroySession "s1"))
        = [(0, RpcCall.destroySession "s1"), (1, RpcCall.destroySession "s1")] := by decide
    rw [hr] at hd
    exact hd
  · have ht := h.2.2 (fun j _ => ⟨⟨[]⟩, rfl⟩)
    have hr : (List.range 3).map (fun j => (j, RpcCall.terminate))
        = [(0, RpcCall.terminate), (1, RpcCall.terminate), (2, RpcCall.terminate)] := by decide
    simpa [hr] using ht

/-- Claim C4: on any client whose task kind is not text generation,
`create_session` and `destroy_session` fail with the precondition
(assert) error without issuing any RPC call — on both the
single-endpoint client and the fan-out client; on a text-generation
client each issues exactly one RPC call per shard client (one for the
single-endpoint client, one per shard for the fan-out client when the
transport accepts the calls). -/
theorem c4_session_precondition (stub : Stub) (stubs : Nat → Stub) (c : MIIClient)
    (task : Task) (host : String) (ports : List Nat) (session_id : String) :
    (c.task ≠ Task.text_generation →
      MIIClient.create_session stub c session_id
        = ([], Except.error (Err.assertionError
            "Session creation only available for task text-generation"))
      ∧ MIIClient.destroy_session stub c session_id
        = ([], Except.error (Err.assertionError
            "Session deletion only available for task text-generation")))
    ∧ (c.task = Task.text_generation →
      (MIIClient.create_session stub c session_id).1 = [RpcCall.createSession session_id]
      ∧ (MIIClient.destroy_session stub c session_id).1 = [RpcCall.destroySession session_id])
    ∧ (task ≠ Task.text_generation → 0 < ports.length →
      MIITensorParallelClient.create_session stubs
          (MIITensorParallelClient.make task host ports) session_id
        = ([], Except.error (Err.assertionError
            "Session creation only available for task text-generation"))
      ∧ MIITensorParallelClient.destroy_session stubs
          (MIITensorParallelClient.make task host ports) session_id
        = ([], Except.error (Err.assertionError
            "Session deletion only available for task text-generation")))
    ∧ (task = Task.text_generation →
      ((∀ j, j < ports.length → ∃ p, stubs j (RpcCall.createSession session_id) = Except.ok p) →
        (MIITensorParallelClient.create_session stubs
            (MIITensorParallelClient.make task host ports) session_id).1
          = (List.range ports.length).map fun j => (j, RpcCall.createSession session_id))
      ∧ ((∀ j, j < ports.length → ∃ p, stubs j (RpcCall.destroySession session_id) = Except.ok p) →
        (MIITensorParallelClient.destroy_session stubs
            (MIITensorParallelClient.make task host ports) session_id).1
          = (List.range ports.length).map fun j => (j, RpcCall.destroySession session_id))) := by
  refine ⟨fun hne => ?_, fun heq => ?_, fun hne hports => ?_, fun heq => ⟨fun hok => ?_, fun hok => ?_⟩⟩
  · exact ⟨by simp [MIIClient.create_session, hne], by simp [MIIClient.destroy_session, hne]⟩
  · exact ⟨by simp [MIIClient.create_session, heq], by simp [MIIClient.destroy_session, heq]⟩
  · cases ports with
    | nil => exact absurd hports (by simp)
    | cons p ps =>
      constructor
      · simp [MIITensorParallelClient.create_session, MIITensorParallelClient.make,
          run_shards, MIIClient.create_session, hne, Except.map]
      · simp [MIITensorParallelClient.destroy_session, MIITensorParallelClient.make,
          run_shards, MIIClient.destroy_session, hne]
  · subst heq
    have hres := run_shards_all_ok (RpcCall.createSession session_id)
      (fun i => (stubs i (RpcCall.createSession session_id)).map fun _ => ())
      (fun i client =>
        let out := MIIClient.create_session (stubs i) client session_id
        (out.1, out.2.map fun _ => ()))
      (ports.map fun port => ⟨Task.text_generation, host, port⟩) 0
      (fun i client hcl => by
        obtain ⟨port, _, hq⟩ := List.mem_map.mp hcl
        subst hq
        simp [MIIClient.create_session])
      (fun j hj => by
        obtain ⟨p, hp⟩ := hok j (by simpa using hj)
        simp [hp, Except.map])
    have := congrArg Prod.fst hres
    simpa [MIITensorParallelClient.create_session, MIITensorParallelClient.make] using this
  · subst heq
    have hres := run_shards_all_ok (RpcCall.destroySession session_id)
      (fun i => match stubs i (RpcCall.destroySession session_id) with
        | Except.error e2 => Except.error e2
        | Except.ok _ => Except.ok ())
      (fun i client => MIIClient.destroy_session (stubs i) client session_id)
      (ports.map fun port => ⟨Task.text_generation, host, port⟩) 0
      (fun i client hcl => by
        obtain ⟨port, _, hq⟩ := List.mem_map.mp hcl
        subst hq
        simp [MIIClient.destroy_session])
      (fun j hj => by
        obtain ⟨p, hp⟩ := hok j (by simpa using hj)
        simp [hp])
    have := congrArg Prod.fst hres
    simpa [MIITensorParallelClient.destroy_session, MIITensorParallelClient.make] using this

/-- Witness for C4 on concrete clients: a conversational
single-endpoint client rejects both session operations with the assert
error and no RPC; a text-generation single-endpoint client issues the
one session call; a conversational two-shard fan-out client rejects
both with no RPC; a text-generation two-shard fan-out client issues
one session call per shard. -/
theorem c4_session_precondition_witness :
    (MIIClient.create_session okStub ⟨Task.conversational, "localhost", 50050⟩ "s1"
      = ([], Except.error (Err.assertionError
          "Session creation only available for task text-generation")))
    ∧ ((MIIClient.create_session okStub ⟨Task.text_generation, "localhost", 50050⟩ "s1").1
      = [RpcCall.createSession "s1"])
    ∧ (MIITensorParallelClient.destroy_session (fun _ => okStub)
        (MIITensorParallelClient.make Task.conversational "localhost" [50050, 50051]) "s1"
      = ([], Except.error (Err.assertionError
          "Session deletion only available for task text-generation")))
    ∧ ((MIITensorParallelClient.create_session (fun _ => okStub)
        (MIITensorParallelClient.make Task.text_generation "localhost" [50050, 50051]) "s1").1
      = [(0, RpcCall.createSession "s1"), (1, RpcCall.createSession "s1")]) := by
  refine ⟨?_, ?_, ?_, ?_⟩
  · exact ((c4_session_precondition okStub (fun _ => okStub)
      ⟨Task.conversational, "localhost", 50050⟩ Task.conversational "localhost" [] "s1").1
      (by decide)).1
  · exact ((c4_session_precondition okStub (fun _ => okStub)
      ⟨Task.text_generation, "localhost", 50050⟩ Task.text_generation "localhost" [] "s1").2.1
      rfl).1
  · exact ((c4_session_precondition okStub (fun _ => okStub)
      ⟨Task.conversational, "localhost", 50050⟩ Task.conversational "localhost"
      [50050, 50051] "s1").2.2.1 (by decide) (by decide)).2
  · have h := ((c4_session_precondition okStub (fun _ => okStub)
      ⟨Task.text_generation, "localhost", 50050⟩ Task.text_generation "localhost"
      [50050, 50051] "s1").2.2.2 rfl).1 (fun j _ => ⟨⟨[("ok", Value.num 1)]⟩, rfl⟩)
    have hr : (List.range 2).map (fun j => (j, RpcCall.createSession "s1"))
        = [(0, RpcCall.createSession "s1"), (1, RpcCall.createSession "s1")] := by decide
    simpa [hr] using h

/-- An entry of the process-wide in-process deployment registry
`mii.non_persistent_models`: the loaded inference pipeline and the
task kind of the deployment. -/
structure NPModel where
  pipeline : Pipeline
  task : Task
  deriving DecidableEq, Repr

/-- The process-wide registry `mii.non_persistent_models`: a dict from
deployment name to its entry, embedded as its lookup function. -/
abbrev Registry := String → Option NPModel

/-- In-process client (`MIINonPersistentClient.__init__`): stores the
task kind and the deployment name. -/
structure MIINonPersistentClient where
  task : Task
  deployment_name : String
  deriving DecidableEq, Repr

/-- One observed invocation of the registered `run_inference`: the pipeline
it was handed, its positional arguments, and its keyword arguments. -/
structure InferenceCall where
  pipeline : Pipeline
  args : List Value
  kwargs : Dict
  deriving DecidableEq, Repr

/-- `MIINonPersistentClient.query`: asserts that the deployment is
present in the registry; indexes the method table by the task (a
Python `KeyError` when absent); builds the per-task positional
arguments — question answering requires the question and context
fields, conversational builds a conversation object via the registered
constructor, any other task indexes the query field — and then invokes
`run_inference` with the pipeline, the built arguments and
`query_kwargs`.  (The conversational branch of the source also binds a
branch-local empty keyword dict at line 178, but line 184 passes
`query_kwargs`, so that binding is dead and `query_kwargs` is what
`run_inference` receives.)  The first component lists the pipeline
invocations issued. -/
def MIINonPersistentClient.query (table : MethodTable) (reg : Registry)
    (c : MIINonPersistentClient) (request_dict query_kwargs : Dict) :
    List InferenceCall × Except Err Value :=
  match reg c.deployment_name with
  | none => ([], Except.error (Err.assertionError
      ("deployment: " ++ c.deployment_name ++ " not found")))
  | some m =>
    match table c.task with
    | none => ([], Except.error (Err.keyError "task"))
    | some task_methods =>
      let inference_pipeline := m.pipeline
      if c.task = Task.question_answering then
        match request_dict.lookup "question", request_dict.lookup "context" with
        | some q, some ctx =>
            ([⟨inference_pipeline, [q, ctx], query_kwargs⟩],
             Except.ok (task_methods.run_inference inference_pipeline [q, ctx] query_kwargs))
        | _, _ =>
            ([], Except.error (Err.missingField
              "Question Answering Task requires question and context keys"))
      else if c.task = Task.conversational then
        let conv := task_methods.create_conversation request_dict query_kwargs
        ([⟨inference_pipeline, [conv], query_kwargs⟩],
         Except.ok (task_methods.run_inference inference_pipeline [conv] query_kwargs))
      else
        match request_dict.lookup "query" with
        | none => ([], Except.error (Err.keyError "query"))
        | some q =>
            ([⟨inference_pipeline, [q], query_kwargs⟩],
             Except.ok (task_methods.run_inference inference_pipeline [q] query_kwargs))

/-- `MIINonPersistentClient.terminate`: deletes the deployment name
from the process-wide registry; Python `del` raises `KeyError` when
the name is not (or no longer) present.  Returns the registry after
removal. -/
def MIINonPersistentClient.terminate (reg : Registry) (c : MIINonPersistentClient) :
    Except Err Registry :=
  match reg c.deployment_name with
  | none => Except.error (Err.keyError c.deployment_name)
  | some _ => Except.ok fun n => if n = c.deployment_name then none else reg n

/-- Modelled from the spec: the deployment configuration object
(`mii.config.MIIConfig`, outside the embedded source) carries the
port configuration of the networked deployment — one or more ports, one
per shard. -/
structure MIIConfig where
  ports : List Nat
  deriving DecidableEq, Repr

/-- The `port_number` attribute that the source resolver reads from
the configuration: the first configured port. -/
def MIIConfig.port_number (c : MIIConfig) : Nat := c.ports.headD 0

/-- The configuration record returned for a deployment name by the
configuration source (`import_score_file(...).configs`): its task kind
and MII configuration. -/
structure DeploymentConfigs where
  task : Task
  mii_configs : MIIConfig
  deriving DecidableEq, Repr

/-- The external deployment-configuration source, by deployment
name; `none` when no configuration can be read for the name. -/
abbrev ConfigSource := String → Option DeploymentConfigs

/-- `_get_deployment_info`: reads the deployment configuration for the
name, failing as deployment-not-found when none can be read. -/
def get_deployment_info (config_source : ConfigSource) (deployment_name : String) :
    Except Err (Task × MIIConfig) :=
  match config_source deployment_name with
  | none => Except.error (Err.deploymentNotFound deployment_name)
  | some configs => Except.ok (configs.task, configs.mii_configs)

/-- The client handle returned to the caller by the resolver. -/
inductive QueryHandle where
  | nonPersistent : MIINonPersistentClient → QueryHandle
  | single : MIIClient → QueryHandle
  | tensorParallel : MIITensorParallelClient → QueryHandle
  deriving DecidableEq, Repr

/-- Discriminator: is the handle a Parallel Fan-out Client? -/
def QueryHandle.is_tensor_parallel : QueryHandle → Bool
  | QueryHandle.tensorParallel _ => true
  | _ => false

/-- `mii_query_handle`: returns an in-process client when the
deployment name is registered in `mii.non_persistent_models`;
otherwise reads the deployment configuration and returns a
single-endpoint `MIIClient` on localhost at the configured
`port_number`. -/
def mii_query_handle (reg : Registry) (config_source : ConfigSource)
    (deployment_name : String) : Except Err QueryHandle :=
  match reg deployment_name with
  | some m => Except.ok (QueryHandle.nonPersistent ⟨m.task, deployment_name⟩)
  | none =>
    match get_deployment_info config_source deployment_name with
    | Except.error e => Except.error e
    | Except.ok (task_name, mii_configs) =>
        Except.ok (QueryHandle.single ⟨task_name, "localhost", mii_configs.port_number⟩)

/-- Configuration source for the end-to-end scenario: deployment
gen1 has task kind text generation and two configured ports. -/
def gen1_config_source : ConfigSource := fun n =>
  if n = "gen1" then some ⟨Task.text_generation, ⟨[50050, 50051]⟩⟩ else none

/-- An empty in-process registry. -/
def empty_registry : Registry := fun _ => none

/-- Claim C1 counterexample: deployment gen1 is configured with two
ports, yet resolving it returns a Single-Endpoint Client bound to the
first port — never a Parallel Fan-out Client, contradicting the
claimed multi-port dispatch. -/
theorem c1_counterexample :
    ((gen1_config_source "gen1").map fun cfg => cfg.mii_configs.ports.length) = some 2
    ∧ mii_query_handle empty_registry gen1_config_source "gen1"
      = Except.ok (QueryHandle.single ⟨Task.text_generation, "localhost", 50050⟩)
    ∧ (mii_query_handle empty_registry gen1_config_source "gen1").map
        QueryHandle.is_tensor_parallel = Except.ok false := by
  refine ⟨by decide, by decide, by decide⟩

/-- Claim C1 (amended): resolving any deployment name absent from the
in-process registry reads its configuration and always returns a
Single-Endpoint Client on localhost at the configured port number (the
first configured port), regardless of how many ports the configuration
specifies. -/
theorem c1_resolve_returns_single (reg : Registry) (config_source : ConfigSource)
    (deployment_name : String) (cfg : DeploymentConfigs)
    (hreg : reg deployment_name = none)
    (hcfg : config_source deployment_name = some cfg) :
    mii_query_handle reg config_source deployment_name
      = Except.ok (QueryHandle.single
          ⟨cfg.task, "localhost", cfg.mii_configs.port_number⟩) := by
  simp [mii_query_handle, get_deployment_info, hreg, hcfg]

/-- Witness for the amended C1 at the two-port gen1 deployment. -/
theorem c1_resolve_returns_single_witness :
    mii_query_handle empty_registry gen1_config_source "gen1"
      = Except.ok (QueryHandle.single ⟨Task.text_generation, "localhost", 50050⟩) :=
  c1_resolve_returns_single empty_registry gen1_config_source "gen1"
    ⟨Task.text_generation, ⟨[50050, 50051]⟩⟩ rfl rfl

/-- Claim C6: an in-process question-answering query whose request
envelope is missing the question key or the context key fails with the
missing-field error and the pipeline records zero invocations. -/
theorem c6_qa_missing_field (table : MethodTable) (reg : Registry)
    (c : MIINonPersistentClient) (m : NPModel) (tm : TaskMethods)
    (request_dict query_kwargs : Dict)
    (hreg : reg c.deployment_name = some m)
    (htask : c.task = Task.question_answering)
    (htm : table c.task = some tm)
    (hmiss : (request_dict.lookup "question").isNone
      ∨ (request_dict.lookup "context").isNone) :
    MIINonPersistentClient.query table reg c request_dict query_kwargs
      = ([], Except.error (Err.missingField
          "Question Answering Task requires question and context keys")) := by
  have htm2 : table Task.question_answering = some tm := by rw [← htask]; exact htm
  rcases hmiss with hq | hc2
  · have hn : request_dict.lookup "question" = none := Option.isNone_iff_eq_none.mp hq
    simp [MIINonPersistentClient.query, hreg, htask, htm2, hn]
  · have hn : request_dict.lookup "context" = none := Option.isNone_iff_eq_none.mp hc2
    rcases hq2 : request_dict.lookup "question" with _ | q <;>
      simp [MIINonPersistentClient.query, hreg, htask, htm2, hn, hq2]

/-- Registry for the in-process witnesses: a question-answering
deployment qa1 and a conversational deployment chat1. -/
def np_registry : Registry := fun n =>
  if n = "qa1" then some ⟨⟨5⟩, Task.question_answering⟩
  else if n = "chat1" then some ⟨⟨7⟩, Task.conversational⟩
  else if n = "gen2" then some ⟨⟨9⟩, Task.text_generation⟩
  else none

/-- Witness for C6: the qa1 deployment queried with a request envelope
holding only the question key fails with the missing-field error and
zero pipeline invocations. -/
theorem c6_qa_missing_field_witness :
    MIINonPersistentClient.query sampleTable np_registry
        ⟨Task.question_answering, "qa1"⟩ [("question", Value.str "why")] []
      = ([], Except.error (Err.missingField
          "Question Answering Task requires question and context keys")) :=
  c6_qa_missing_field sampleTable np_registry ⟨Task.question_answering, "qa1"⟩
    ⟨⟨5⟩, Task.question_answering⟩ sampleMethods [("question", Value.str "why")] []
    rfl rfl rfl (by decide)

/-- The non-empty keyword parameters of the C7 failing input. -/
def c7_kwargs : Dict := [("temperature", Value.num 9)]

/-- Claim C7 (code bug): on the conversational chat1 deployment the
query builds the conversation object from the envelope and keyword
parameters via the registered constructor and passes it as the sole
positional argument, but `run_inference` receives the original
`query_kwargs` — here non-empty — although the conversational branch
computes an empty branch-local keyword dict that line 184 of the
source never uses; the claim (and the dead branch binding) say the
invoked keyword arguments are empty. -/
theorem c7_conversational_kwargs :
    (MIINonPersistentClient.query sampleTable np_registry
        ⟨Task.conversational, "chat1"⟩ [("text", Value.str "hi")] c7_kwargs).1
      = [⟨⟨7⟩, [sampleMethods.create_conversation [("text", Value.str "hi")] c7_kwargs],
          c7_kwargs⟩]
    ∧ (MIINonPersistentClient.query sampleTable np_registry
        ⟨Task.conversational, "chat1"⟩ [("text", Value.str "hi")] c7_kwargs).1.map
        InferenceCall.kwargs = [c7_kwargs]
    ∧ c7_kwargs ≠ [] := by
  refine ⟨by decide, by decide, by decide⟩

/-- Registry with one text-generation deployment dep1, for C8. -/
def c8_registry : Registry := fun n =>
  if n = "dep1" then some ⟨⟨1⟩, Task.text_generation⟩ else none

/-- The C8 in-process client handle. -/
def c8_np_client : MIINonPersistentClient := ⟨Task.text_generation, "dep1"⟩

/-- Whether an embedded operation completed without raising. -/
def except_is_ok {α : Type} : Except Err α → Bool
  | Except.ok _ => true
  | Except.error _ => false

/-- The error of a failed embedded operation, when it failed. -/
def except_error_of {α : Type} : Except Err α → Option Err
  | Except.error e => some e
  | Except.ok _ => none

/-- Calling the in-process terminate twice on the same handle,
threading the registry state. -/
def terminate_twice (reg : Registry) (c : MIINonPersistentClient) :
    Except Err Registry :=
  match MIINonPersistentClient.terminate reg c with
  | Except.error e => Except.error e
  | Except.ok reg2 => MIINonPersistentClient.terminate reg2 c

/-- Claim C8 counterexample: on the in-process client a first
`terminate` completes, but a second `terminate` on the same handle
raises a key-lookup error instead of completing — terminate is not
idempotent. -/
theorem c8_counterexample :
    except_is_ok (MIINonPersistentClient.terminate c8_registry c8_np_client) = true
    ∧ except_error_of (terminate_twice c8_registry c8_np_client)
      = some (Err.keyError "dep1") := by
  constructor <;> rfl

/-- Claim C8 (amended): on the networked client, `terminate` issues the
terminate RPC on each invocation, so repeating it completes whenever
the transport accepts the call; on the in-process client, `terminate`
removes the deployment name from the process-wide registry, making it
unresolvable, and a second `terminate` on the same handle fails with a
key-lookup error (it is not idempotent). -/
theorem c8_terminate_rerun (reg : Registry) (c : MIINonPersistentClient) (m : NPModel)
    (stub : Stub) (nc : MIIClient) (p : Proto)
    (hreg : reg c.deployment_name = some m)
    (hstub : stub RpcCall.terminate = Except.ok p) :
    (∀ reg2, MIINonPersistentClient.terminate reg c = Except.ok reg2 →
      reg2 c.deployment_name = none
      ∧ MIINonPersistentClient.terminate reg2 c
          = Except.error (Err.keyError c.deployment_name))
    ∧ (∃ reg2, MIINonPersistentClient.terminate reg c = Except.ok reg2)
    ∧ MIIClient.terminate_call stub nc = ([RpcCall.terminate], Except.ok ()) := by
  refine ⟨fun reg2 hr2 => ?_, ?_, ?_⟩
  · simp only [MIINonPersistentClient.terminate, hreg, Except.ok.injEq] at hr2
    subst hr2
    refine ⟨by simp, ?_⟩
    simp [MIINonPersistentClient.terminate]
  · exact ⟨fun n => if n = c.deployment_name then none else reg n,
      by simp [MIINonPersistentClient.terminate, hreg]⟩
  · simp [MIIClient.terminate_call, hstub]

/-- Witness for the amended C8 at the dep1 deployment and a concrete
networked client: the double in-process terminate fails with the
key-lookup error, and the networked terminate issues its single RPC
and completes. -/
theorem c8_terminate_rerun_witness :
    except_error_of (terminate_twice c8_registry c8_np_client)
      = some (Err.keyError "dep1")
    ∧ MIIClient.terminate_call okStub ⟨Task.text_generation, "localhost", 50050⟩
      = ([RpcCall.terminate], Except.ok ()) := by
  have h := c8_terminate_rerun c8_registry c8_np_client ⟨⟨1⟩, Task.text_generation⟩
    okStub ⟨Task.text_generation, "localhost", 50050⟩ ⟨[("ok", Value.num 1)]⟩ rfl rfl
  refine ⟨?_, h.2.2⟩
  obtain ⟨reg2, hreg2⟩ := h.2.1
  have h2 := (h.1 reg2 hreg2).2
  simp only [c8_np_client] at hreg2 h2
  simp [terminate_twice, hreg2, h2, except_error_of, c8_np_client]

/-- Claim C10: an in-process query whose task kind is neither question
answering nor conversational fails with the key-lookup error and zero
pipeline invocations when the request envelope has no query field;
otherwise the query field is the sole positional argument and the
keyword parameters are passed through to `run_inference`. -/
theorem c10_default_branch (table : MethodTable) (reg : Registry)
    (c : MIINonPersistentClient) (m : NPModel) (tm : TaskMethods)
    (request_dict query_kwargs : Dict)
    (hreg : reg c.deployment_name = some m)
    (htm : table c.task = some tm)
    (h1 : c.task ≠ Task.question_answering)
    (h2 : c.task ≠ Task.conversational) :
    (request_dict.lookup "query" = none →
      MIINonPersistentClient.query table reg c request_dict query_kwargs
        = ([], Except.error (Err.keyError "query")))
    ∧ (∀ v, request_dict.lookup "query" = some v →
      MIINonPersistentClient.query table reg c request_dict query_kwargs
        = ([⟨m.pipeline, [v], query_kwargs⟩],
           Except.ok (tm.run_inference m.pipeline [v] query_kwargs))) := by
  constructor
  · intro hq
    simp [MIINonPersistentClient.query, hreg, htm, h1, h2, hq]
  · intro v hq
    simp [MIINonPersistentClient.query, hreg, htm, h1, h2, hq]

/-- Witness for C10 on the text-generation deployment gen2: a request
envelope without the query field fails with the key-lookup error and
zero pipeline invocations; one holding a query field invokes the
pipeline once with it and the passed-through keyword parameters. -/
theorem c10_default_branch_witness :
    MIINonPersistentClient.query sampleTable np_registry
        ⟨Task.text_generation, "gen2"⟩ [("text", Value.str "hi")] []
      = ([], Except.error (Err.keyError "query"))
    ∧ MIINonPersistentClient.query sampleTable np_registry
        ⟨Task.text_generation, "gen2"⟩ [("query", Value.str "hello")] c7_kwargs
      = ([⟨⟨9⟩, [Value.str "hello"], c7_kwargs⟩],
         Except.ok (Value.num 11)) := by
  constructor
  · exact (c10_default_branch sampleTable np_registry ⟨Task.text_generation, "gen2"⟩
      ⟨⟨9⟩, Task.text_generation⟩ sampleMethods [("text", Value.str "hi")] []
      rfl rfl (by decide) (by decide)).1 rfl
  · exact (c10_default_branch sampleTable np_registry ⟨Task.text_generation, "gen2"⟩
      ⟨⟨9⟩, Task.text_generation⟩ sampleMethods [("query", Value.str "hello")] c7_kwargs
      rfl rfl (by decide) (by decide)).2 (Value.str "hello") rfl

end MII
